import Mathlib

/-!
Verification of the DJEI backend's token-ledger and role-assignment routes.

The definitions below are a shallow embedding of the Express route handlers
in `src/routes/payments/tokens.ts` and `src/routes/auth/role.ts`:

* a per-account `AccountState` models the rows of the `user_tokens`,
  `token_transactions`, `song_bids` and `admin_actions` tables that mention
  one account (accounts are independent — no route reads another account's
  rows);
* each route handler becomes a function from the request parameters and the
  current state to a response value paired with the successor state;
* Supabase write errors are modelled by explicit `Bool` flags (`true` =
  the write succeeds), mirroring the handlers' `if (error) ...` checks;
* a `.single()` read that finds no row yields `none`, mirroring the
  PGRST116 error / `null` data pair that Supabase returns.
-/

namespace DJEI

/-- A row of `token_transactions` for the account: the signed `amount`, the
`transaction_type` string, and the `paymentIntentId` stored in the metadata
of purchase transactions (`none` for bid / admin rows). -/
structure Tx where
  amount : Int
  kind : String
  pid : Option String
  deriving Repr, DecidableEq

/-- A row of `admin_actions` targeting the account: the `details` recorded
by the admin-adjust handler. -/
structure AdminAction where
  adjustment : Int
  old_balance : Int
  new_balance : Int
  deriving Repr, DecidableEq

/-- Database state restricted to one account.
`balanceRow = none` means `user_tokens` has no row for this profile yet;
`txLog` lists the account's `token_transactions` rows oldest-first;
`bids` lists the account's `song_bids` rows as (song_id, bid_amount). -/
structure AccountState where
  balanceRow : Option Int
  txLog : List Tx
  bids : List (String × Int)
  adminActions : List AdminAction
  deriving Repr, DecidableEq

/-- `GET /api/payments/tokens/balance`: `userTokens?.balance || 0`. -/
def getBalance (s : AccountState) : Int :=
  s.balanceRow.getD 0

/-- Sum of all `token_transactions.amount` recorded for the account. -/
def txSum (s : AccountState) : Int :=
  (s.txLog.map Tx.amount).sum

/-- The `tokenPurchaseSchema` zod check: `amount` in 1..10000 and
`packageType` one of "50", "100", "250", "500" (`paymentIntentId` is any
string, so it imposes no constraint here). -/
def purchaseSchemaOk (amount : Int) (packageType : String) : Prop :=
  1 ≤ amount ∧ amount ≤ 10000 ∧
    packageType ∈ (["50", "100", "250", "500"] : List String)

instance (amount : Int) (packageType : String) :
    Decidable (purchaseSchemaOk amount packageType) := by
  unfold purchaseSchemaOk; infer_instance

/-- Responses of `POST /api/payments/tokens/purchase`. -/
inductive PurchaseResult where
  /-- 400 `Validation failed` (zod rejection). -/
  | validationError
  /-- 500 `Failed to update balance` (the `user_tokens` upsert errored). -/
  | updateFailed
  /-- 200 `{success:true, newBalance, amountAdded}`. -/
  | success (newBalance amountAdded : Int)
  deriving Repr, DecidableEq

/-- `POST /api/payments/tokens/purchase`.  Reads the current balance
(defaulting a missing row to 0), upserts `balance = current + amount`,
then inserts a `purchase` transaction row; an insert error there is logged
and swallowed (`// Don't fail the operation`), so the response is still
success.  `upsertOk` / `txInsertOk` model the two Supabase writes. -/
def purchase (s : AccountState) (amount : Int) (packageType : String)
    (paymentIntentId : String) (upsertOk txInsertOk : Bool) :
    PurchaseResult × AccountState :=
  if purchaseSchemaOk amount packageType then
    let currentBalance := s.balanceRow.getD 0
    let newBalance := currentBalance + amount
    if upsertOk then
      let s1 := { s with balanceRow := some newBalance }
      let s2 :=
        if txInsertOk then
          { s1 with txLog :=
              s1.txLog ++ [⟨amount, "purchase", some paymentIntentId⟩] }
        else s1
      (.success newBalance amount, s2)
    else (.updateFailed, s)
  else (.validationError, s)

/-- The `bidTokenSchema` zod check: `bidAmount` in 1..1000 (`songId` is any
string, `eventId` optional). -/
def bidSchemaOk (bidAmount : Int) : Prop :=
  1 ≤ bidAmount ∧ bidAmount ≤ 1000

instance (bidAmount : Int) : Decidable (bidSchemaOk bidAmount) := by
  unfold bidSchemaOk; infer_instance

/-- Responses of `POST /api/payments/tokens/bid`. -/
inductive BidResult where
  /-- 400 `Validation failed` (zod rejection). -/
  | validationError
  /-- 500 `Failed to check balance`: the `.single()` select on
  `user_tokens` errored — including PGRST116 when the account has no row. -/
  | checkBalanceFailed
  /-- 400 `{error:'Insufficient tokens', currentBalance, required}`. -/
  | insufficientTokens (currentBalance required : Int)
  /-- 500 `Failed to process bid` (the balance update errored). -/
  | updateFailed
  /-- 200 `{success:true, newBalance, bidAmount, songId}`. -/
  | success (newBalance bidAmount : Int) (songId : String)
  deriving Repr, DecidableEq

/-- `song_bids` upsert keyed by (user_id, song_id): replace the row for
`songId` if one exists, else append one. -/
def upsertBid (bids : List (String × Int)) (songId : String)
    (bidAmount : Int) : List (String × Int) :=
  if bids.any (fun b => b.1 = songId) then
    bids.map (fun b => if b.1 = songId then (songId, bidAmount) else b)
  else bids ++ [(songId, bidAmount)]

/-- `POST /api/payments/tokens/bid`.  The `.single()` balance select errors
when no row exists (PGRST116) and the handler returns 500 on *any*
`balanceError`; otherwise it rejects when `currentBalance < bidAmount`,
else updates the balance, inserts a `bid` transaction (error swallowed) and
upserts a `song_bids` row (error swallowed). -/
def bid (s : AccountState) (songId : String) (bidAmount : Int)
    (updateOk txInsertOk bidUpsertOk : Bool) : BidResult × AccountState :=
  if bidSchemaOk bidAmount then
    match s.balanceRow with
    | none => (.checkBalanceFailed, s)
    | some currentBalance =>
      if currentBalance < bidAmount then
        (.insufficientTokens currentBalance bidAmount, s)
      else
        let newBalance := currentBalance - bidAmount
        if updateOk then
          let s1 := { s with balanceRow := some newBalance }
          let s2 :=
            if txInsertOk then
              { s1 with txLog := s1.txLog ++ [⟨-bidAmount, "bid", none⟩] }
            else s1
          let s3 :=
            if bidUpsertOk then
              { s2 with bids := upsertBid s2.bids songId bidAmount }
            else s2
          (.success newBalance bidAmount songId, s3)
        else (.updateFailed, s)
  else (.validationError, s)

/-- Responses of `POST /api/payments/tokens/admin/adjust`. -/
inductive AdjustResult where
  /-- 403 `Admin privileges required`. -/
  | forbidden
  /-- 400 `Missing required fields` (falsy `userId`/`reason`). -/
  | missingFields
  /-- 500 `Failed to adjust balance` (the upsert errored). -/
  | updateFailed
  /-- 200 `{success:true, newBalance, adjustment}`. -/
  | success (newBalance adjustment : Int)
  deriving Repr, DecidableEq

/-- `POST /api/payments/tokens/admin/adjust`.  After the admin and
presence checks it computes `newBalance = Math.max(0, current + adjustment)`
(clamping at zero), upserts the balance, then inserts an
`admin_adjustment` transaction whose `amount` field is the *raw*
`adjustment`, and an `admin_actions` row with the old and new balances
(both inserts are awaited without error handling). -/
def adminAdjust (s : AccountState) (isAdmin : Bool) (userId : String)
    (adjustment : Int) (reason : String) (upsertOk : Bool) :
    AdjustResult × AccountState :=
  if isAdmin then
    if userId = "" ∨ reason = "" then (.missingFields, s)
    else
      let currentBalance := s.balanceRow.getD 0
      let newBalance := max 0 (currentBalance + adjustment)
      if upsertOk then
        let s1 :=
          { s with
            balanceRow := some newBalance
            txLog := s.txLog ++ [⟨adjustment, "admin_adjustment", none⟩]
            adminActions := s.adminActions ++
              [⟨adjustment, currentBalance, newBalance⟩] }
        (.success newBalance adjustment, s1)
      else (.updateFailed, s)
  else (.forbidden, s)

/-- `GET /api/payments/tokens/transactions?page=&limit=`: orders the
account's transactions newest-first, returns the slice
`range(offset, offset + limit - 1)` with `offset = (page - 1) * limit`,
and sets `hasMore` to `transactions.length === Number(limit)`. -/
def listTransactions (s : AccountState) (page limit : Nat) :
    List Tx × Bool :=
  let offset := (page - 1) * limit
  let pageItems := (s.txLog.reverse.drop offset).take limit
  (pageItems, pageItems.length == limit)

/-! ### Sequences of ledger operations

For the ledger invariants we run arbitrary sequences of the three mutating
routes against one account, with every Supabase write succeeding (the
success flags all `true`); admin calls are made by a caller that passes the
`is_admin` check. -/

/-- One call to a mutating ledger route, carrying the request fields. -/
inductive LedgerOp where
  | purchase (amount : Int) (packageType : String) (paymentIntentId : String)
  | bid (songId : String) (bidAmount : Int)
  | adminAdjust (userId : String) (adjustment : Int) (reason : String)
  deriving Repr, DecidableEq

/-- Successor state of one route call with every database write
succeeding. -/
def applyOp (s : AccountState) : LedgerOp → AccountState
  | .purchase a pt pid => (purchase s a pt pid true true).2
  | .bid sid amt => (bid s sid amt true true true).2
  | .adminAdjust uid adj r => (adminAdjust s true uid adj r true).2

/-- Run a sequence of route calls left to right. -/
def run (s : AccountState) (ops : List LedgerOp) : AccountState :=
  ops.foldl applyOp s

/-- `true` when the step, if it is an admin adjustment, does not trigger
the `Math.max(0, ...)` clamp on the state it runs against. -/
def noClampStep (s : AccountState) : LedgerOp → Bool
  | .adminAdjust _ adj _ => decide (0 ≤ getBalance s + adj)
  | _ => true

/-- `true` when no admin adjustment along the run clamps. -/
def noClampRun : AccountState → List LedgerOp → Bool
  | _, [] => true
  | s, op :: ops => noClampStep s op && noClampRun (applyOp s op) ops

/-- The account with no rows in any table yet. -/
def freshAccount : AccountState := ⟨none, [], [], []⟩

/-! ### Role assignment (`src/routes/auth/role.ts`)

State is the set of profile rows mentioning one user id across the three
role tables, modelled as lists of ids (a table holds the id iff the user
has a profile row there). -/

inductive UserRole where
  | attendee
  | dj
  | venue
  deriving Repr, DecidableEq

/-- The three role tables, each as the list of user ids having a row. -/
structure RoleState where
  attendee : List String
  dj : List String
  venue : List String
  deriving Repr, DecidableEq

/-- The `getUserRole` helper: probe the tables in the fixed order
`['attendee', 'dj', 'venue']` with `.select('id').eq('id', userId)
.single()`, returning the first table holding a row for the user. -/
def getUserRole (s : RoleState) (userId : String) : Option UserRole :=
  if userId ∈ s.attendee then some .attendee
  else if userId ∈ s.dj then some .dj
  else if userId ∈ s.venue then some .venue
  else none

/-- The table list a role inserts into / deletes from. -/
def roleTable (s : RoleState) : UserRole → List String
  | .attendee => s.attendee
  | .dj => s.dj
  | .venue => s.venue

/-- Add the user's row to one role table. -/
def insertRole (s : RoleState) (role : UserRole) (userId : String) :
    RoleState :=
  match role with
  | .attendee => { s with attendee := s.attendee ++ [userId] }
  | .dj => { s with dj := s.dj ++ [userId] }
  | .venue => { s with venue := s.venue ++ [userId] }

/-- Remove every row of the user from one role table
(`.delete().eq('id', userId)`). -/
def removeRole (s : RoleState) (role : UserRole) (userId : String) :
    RoleState :=
  match role with
  | .attendee => { s with attendee := s.attendee.filter (· ≠ userId) }
  | .dj => { s with dj := s.dj.filter (· ≠ userId) }
  | .venue => { s with venue := s.venue.filter (· ≠ userId) }

/-- Number of role tables holding a row for the user. -/
def roleCount (s : RoleState) (userId : String) : Nat :=
  (if userId ∈ s.attendee then 1 else 0) +
    (if userId ∈ s.dj then 1 else 0) +
    (if userId ∈ s.venue then 1 else 0)

/-- Responses of `POST /api/role`. -/
inductive AssignResult where
  /-- 401 `User not authenticated` (falsy id or email). -/
  | unauthenticated
  /-- 409 `User already has a role assigned`, with `currentRole`. -/
  | conflict (currentRole : UserRole)
  /-- 400 `Failed to set role` (the insert errored). -/
  | insertFailed
  /-- 201 `Successfully set role as ...`. -/
  | created (role : UserRole)
  deriving Repr, DecidableEq

/-- `POST /api/role`: after the auth check, a 409 when `getUserRole` finds
an existing role, else an insert into the requested role's table (`role`
is already one of attendee/dj/venue, so the `includes` check passes). -/
def assignRole (s : RoleState) (userId userEmail : String)
    (role : UserRole) (insertOk : Bool) : AssignResult × RoleState :=
  if userId = "" ∨ userEmail = "" then (.unauthenticated, s)
  else
    match getUserRole s userId with
    | some existingRole => (.conflict existingRole, s)
    | none =>
      if insertOk then (.created role, insertRole s role userId)
      else (.insertFailed, s)

/-- Responses of `DELETE /api/role`. -/
inductive DeleteResult where
  /-- 401 `User not authenticated`. -/
  | unauthenticated
  /-- 404 `User role not found`. -/
  | notFound
  /-- 400 `Failed to delete role` (the delete errored). -/
  | deleteFailed
  /-- 200 `Role deleted successfully`. -/
  | deleted
  deriving Repr, DecidableEq

/-- `DELETE /api/role`: finds the user's current role, 404 when there is
none, else deletes the user's row from that role's table only. -/
def deleteRole (s : RoleState) (userId : String) (deleteOk : Bool) :
    DeleteResult × RoleState :=
  if userId = "" then (.unauthenticated, s)
  else
    match getUserRole s userId with
    | none => (.notFound, s)
    | some currentRole =>
      if deleteOk then (.deleted, removeRole s currentRole userId)
      else (.deleteFailed, s)

/-! ### Helper lemmas -/

theorem balance_nonneg_step (s : AccountState) (op : LedgerOp)
    (h : 0 ≤ getBalance s) : 0 ≤ getBalance (applyOp s op) := by
  cases op with
  | purchase a pt pid =>
    simp only [applyOp, purchase]
    split
    · next hok =>
      obtain ⟨h1, -, -⟩ := hok
      simp only [if_true, getBalance, Option.getD_some] at *
      omega
    · exact h
  | bid sid amt =>
    simp only [applyOp, bid]
    split
    · next hok =>
      rcases hrow : s.balanceRow with _ | b
      · simpa [hrow] using h
      · simp only [hrow]
        split
        · simpa [getBalance, hrow] using h
        · next hge =>
          simp only [if_true, getBalance, Option.getD_some]
          omega
    · exact h
  | adminAdjust uid adj r =>
    simp only [applyOp, adminAdjust, if_true]
    split
    · exact h
    · simp only [if_true, getBalance, Option.getD_some]
      exact le_max_left 0 _

theorem ledger_consistent_step (s : AccountState) (op : LedgerOp)
    (hinv : getBalance s = txSum s) (hnc : noClampStep s op = true) :
    getBalance (applyOp s op) = txSum (applyOp s op) := by
  cases op with
  | purchase a pt pid =>
    simp only [applyOp, purchase]
    split
    · simp only [if_true, getBalance, txSum, Option.getD_some,
        List.map_append, List.sum_append, List.map_cons, List.map_nil,
        List.sum_cons, List.sum_nil]
      simp only [getBalance, txSum] at hinv
      omega
    · exact hinv
  | bid sid amt =>
    simp only [applyOp, bid]
    split
    · rcases hrow : s.balanceRow with _ | b
      · exact hinv
      · simp only [hrow]
        split
        · exact hinv
        · simp only [if_true, getBalance, txSum, Option.getD_some,
            List.map_append, List.sum_append, List.map_cons, List.map_nil,
            List.sum_cons, List.sum_nil]
          simp only [getBalance, txSum, hrow, Option.getD_some] at hinv
          omega
    · exact hinv
  | adminAdjust uid adj r =>
    simp only [noClampStep, decide_eq_true_eq] at hnc
    simp only [applyOp, adminAdjust, if_true]
    split
    · exact hinv
    · simp only [if_true, getBalance, txSum, Option.getD_some,
        List.map_append, List.sum_append, List.map_cons, List.map_nil,
        List.sum_cons, List.sum_nil]
      simp only [getBalance, txSum] at hinv hnc
      omega

theorem not_mem_filter_self (a : String) (l : List String) :
    a ∉ l.filter (fun x => x ≠ a) := by
  simp [List.mem_filter]

/-! ### Claims -/

/-- C3: non-negativity invariant: starting from a non-negative balance, no
sequence of purchase (Credit), bid (Debit) and admin-adjust operations —
each applied through the corresponding route handler with all database
writes succeeding — produces a negative balance: Credit only adds a
schema-positive amount, Debit refuses when the balance is insufficient,
and the admin adjustment clamps at zero. -/
theorem run_balance_nonneg (s : AccountState) (ops : List LedgerOp)
    (h : 0 ≤ getBalance s) : 0 ≤ getBalance (run s ops) := by
  induction ops generalizing s with
  | nil => exact h
  | cons op ops ih =>
    simp only [run, List.foldl_cons]
    exact ih (applyOp s op) (balance_nonneg_step s op h)

/-- Witness for C3 on a concrete run: a fresh account, credited 100,
debited 25 by a bid, then admin-adjusted by -1000, never goes negative. -/
theorem run_balance_nonneg_witness :
    0 ≤ getBalance freshAccount ∧
      0 ≤ getBalance (run freshAccount
        [.purchase 100 "100" "pi_1", .bid "song_1" 25,
         .adminAdjust "user_1" (-1000) "correction"]) :=
  ⟨by decide, run_balance_nonneg freshAccount
    [.purchase 100 "100" "pi_1", .bid "song_1" 25,
     .adminAdjust "user_1" (-1000) "correction"] (by decide)⟩

/-- C2 (counterexample): ledger-balance consistency fails as stated.  On a
fresh account, a purchase of 75 followed by an admin adjustment of -1000 —
with every transaction-log write succeeding — leaves the balance clamped
at 0 while the recorded transaction amounts sum to 75 + (-1000) = -925. -/
theorem ledger_consistency_cex :
    getBalance (run freshAccount
      [.purchase 75 "50" "pi_0", .adminAdjust "target" (-1000) "audit"]) = 0 ∧
    txSum (run freshAccount
      [.purchase 75 "50" "pi_0", .adminAdjust "target" (-1000) "audit"]) = -925 := by
  decide

/-- C2 (amended): ledger-balance consistency holds for every sequence of
purchase, bid and admin-adjust operations, with every transaction-log write
succeeding, provided no admin adjustment triggers the zero-clamp (each one
satisfies current + adjustment ≥ 0): the balance then equals the sum of
all recorded transaction amounts. -/
theorem run_ledger_consistent (s : AccountState) (ops : List LedgerOp)
    (hinv : getBalance s = txSum s) (hnc : noClampRun s ops = true) :
    getBalance (run s ops) = txSum (run s ops) := by
  induction ops generalizing s with
  | nil => exact hinv
  | cons op ops ih =>
    simp only [noClampRun, Bool.and_eq_true] at hnc
    simp only [run, List.foldl_cons]
    exact ih (applyOp s op) (ledger_consistent_step s op hinv hnc.1) hnc.2

/-- Witness for C2 (amended) on a concrete run: credit 100, bid 25, admin
adjustment of -40 (no clamp): balance 35 equals 100 - 25 - 40. -/
theorem run_ledger_consistent_witness :
    getBalance freshAccount = txSum freshAccount ∧
    noClampRun freshAccount
      [.purchase 100 "100" "pi_1", .bid "song_1" 25,
       .adminAdjust "user_1" (-40) "refund"] = true ∧
    getBalance (run freshAccount
      [.purchase 100 "100" "pi_1", .bid "song_1" 25,
       .adminAdjust "user_1" (-40) "refund"]) =
      txSum (run freshAccount
        [.purchase 100 "100" "pi_1", .bid "song_1" 25,
         .adminAdjust "user_1" (-40) "refund"]) :=
  ⟨by decide, by decide, run_ledger_consistent freshAccount
    [.purchase 100 "100" "pi_1", .bid "song_1" 25,
     .adminAdjust "user_1" (-40) "refund"] (by decide) (by decide)⟩

/-- C1 (counterexample): adjusting by -1000 on a balance of 75 does clamp
the new balance to 0, but the appended admin_adjustment transaction
records the raw requested amount -1000, not the post-clamp delta -75. -/
theorem adminAdjust_records_raw_cex :
    (adminAdjust ⟨some 75, [], [], []⟩ true "target" (-1000) "audit" true).1 =
      .success 0 (-1000) ∧
    ((adminAdjust ⟨some 75, [], [], []⟩ true "target" (-1000) "audit" true).2.txLog.map
      Tx.amount) = [-1000] ∧
    ((adminAdjust ⟨some 75, [], [], []⟩ true "target" (-1000) "audit" true).2.txLog.map
      Tx.amount) ≠ [-75] := by
  refine ⟨by decide, by decide, by decide⟩

/-- C1 (amended): for every admin adjustment that passes the admin and
field checks and whose balance upsert succeeds, the new balance is
max(0, current + adjustment), the appended admin_adjustment transaction
records the raw requested adjustment (pre-clamp), and the admin_actions
audit row records the adjustment with the old and new balances. -/
theorem adminAdjust_spec (s : AccountState) (uid reason : String)
    (adj : Int) (h1 : uid ≠ "") (h2 : reason ≠ "") :
    adminAdjust s true uid adj reason true =
      (.success (max 0 (getBalance s + adj)) adj,
       { s with
          balanceRow := some (max 0 (getBalance s + adj))
          txLog := s.txLog ++ [⟨adj, "admin_adjustment", none⟩]
          adminActions := s.adminActions ++
            [⟨adj, getBalance s, max 0 (getBalance s + adj)⟩] }) := by
  simp [adminAdjust, getBalance, h1, h2]

/-- Witness for C1 (amended) at balance 75, adjustment -1000. -/
theorem adminAdjust_spec_witness :
    ("target" : String) ≠ "" ∧ ("audit" : String) ≠ "" ∧
    adminAdjust ⟨some 75, [], [], []⟩ true "target" (-1000) "audit" true =
      (.success (max 0 (getBalance ⟨some 75, [], [], []⟩ + (-1000))) (-1000),
       { (⟨some 75, [], [], []⟩ : AccountState) with
          balanceRow := some (max 0 (getBalance ⟨some 75, [], [], []⟩ + (-1000)))
          txLog := [⟨-1000, "admin_adjustment", none⟩]
          adminActions := [⟨-1000, getBalance ⟨some 75, [], [], []⟩,
            max 0 (getBalance ⟨some 75, [], [], []⟩ + (-1000))⟩] }) :=
  ⟨by decide, by decide,
    adminAdjust_spec ⟨some 75, [], [], []⟩ "target" "audit" (-1000)
      (by decide) (by decide)⟩

/-- C4: debit boundary and atomicity on failure.  With a balance row
holding `b` (schema-admissible: 1 ≤ b and b + 1 ≤ 1000), a bid of exactly
`b` succeeds and leaves the balance 0 (appending the `-b` transaction and
upserting the bid row), while a bid of `b + 1` returns the
insufficient-tokens error reporting the current balance `b` and the
required amount `b + 1`, and leaves the whole state — balance, transaction
log and song_bids rows — unchanged. -/
theorem bid_boundary (s : AccountState) (b : Int) (songId : String)
    (hrow : s.balanceRow = some b) (h1 : 1 ≤ b) (h2 : b + 1 ≤ 1000) :
    bid s songId b true true true =
      (.success 0 b songId,
       { s with
          balanceRow := some 0
          txLog := s.txLog ++ [⟨-b, "bid", none⟩]
          bids := upsertBid s.bids songId b }) ∧
    bid s songId (b + 1) true true true =
      (.insufficientTokens b (b + 1), s) := by
  constructor
  · simp only [bid, hrow]
    rw [if_pos (by exact ⟨h1, by omega⟩)]
    simp only [lt_irrefl, if_false, if_true, sub_self]
  · simp only [bid, hrow]
    rw [if_pos (by exact ⟨by omega, h2⟩)]
    rw [if_pos (by omega)]

/-- Witness for C4 at balance 75: a bid of 75 empties the balance, a bid
of 76 is rejected with the current and required amounts and changes
nothing. -/
theorem bid_boundary_witness :
    (⟨some 75, [], [], []⟩ : AccountState).balanceRow = some 75 ∧
    bid ⟨some 75, [], [], []⟩ "song_1" 75 true true true =
      (.success 0 75 "song_1",
       { (⟨some 75, [], [], []⟩ : AccountState) with
          balanceRow := some 0
          txLog := [⟨-75, "bid", none⟩]
          bids := upsertBid [] "song_1" 75 }) ∧
    bid ⟨some 75, [], [], []⟩ "song_1" 76 true true true =
      (.insufficientTokens 75 76, ⟨some 75, [], [], []⟩) :=
  ⟨by decide,
    (bid_boundary ⟨some 75, [], [], []⟩ 75 "song_1" (by decide) (by decide)
      (by decide)).1,
    (bid_boundary ⟨some 75, [], [], []⟩ 75 "song_1" (by decide) (by decide)
      (by decide)).2⟩

/-- C5: when the account has no `user_tokens` row, a schema-valid bid hits
the PGRST116 error from the `.single()` balance select and the handler's
blanket `if (balanceError)` check, so it returns the 500
`Failed to check balance` internal error — not the 400
InsufficientFunds(current = 0, required = amount) the spec describes —
though it does make no mutation. -/
theorem bid_noRow_internalError (s : AccountState) (songId : String)
    (amt : Int) (updateOk txInsertOk bidUpsertOk : Bool)
    (hrow : s.balanceRow = none) (h : bidSchemaOk amt) :
    bid s songId amt updateOk txInsertOk bidUpsertOk =
      (.checkBalanceFailed, s) := by
  simp [bid, hrow, h]

/-- Witness for C5: a fresh account bidding 5 tokens gets the 500
balance-check failure. -/
theorem bid_noRow_internalError_witness :
    freshAccount.balanceRow = none ∧ bidSchemaOk 5 ∧
    bid freshAccount "song_1" 5 true true true =
      (.checkBalanceFailed, freshAccount) :=
  ⟨by decide, by decide,
    bid_noRow_internalError freshAccount "song_1" 5 true true true
      (by decide) (by decide)⟩

/-- C6: for every schema-valid purchase whose balance upsert succeeds, a
failing transaction-log insert does not fail the operation: the response
is still success carrying the new balance and the amount added, the
committed balance stands, and only the transaction log is left without
the new row. -/
theorem purchase_txLogFailure_nonfatal (s : AccountState) (amount : Int)
    (packageType paymentIntentId : String)
    (h : purchaseSchemaOk amount packageType) :
    purchase s amount packageType paymentIntentId true false =
      (.success (getBalance s + amount) amount,
       { s with balanceRow := some (getBalance s + amount) }) := by
  simp [purchase, getBalance, h]

/-- Witness for C6: crediting 100 onto a balance of 20 with the log insert
failing still succeeds with new balance 120 and leaves the log alone. -/
theorem purchase_txLogFailure_nonfatal_witness :
    purchaseSchemaOk 100 "100" ∧
    purchase ⟨some 20, [], [], []⟩ 100 "100" "pi_1" true false =
      (.success (getBalance ⟨some 20, [], [], []⟩ + 100) 100,
       { (⟨some 20, [], [], []⟩ : AccountState) with
          balanceRow := some (getBalance ⟨some 20, [], [], []⟩ + 100) }) :=
  ⟨by decide,
    purchase_txLogFailure_nonfatal ⟨some 20, [], [], []⟩ 100 "100" "pi_1"
      (by decide)⟩

/-- C7 (counterexample): two purchases carrying the same paymentIntentId
both credit.  From a fresh account, purchasing 100 twice with
paymentIntentId "pi_dup" leaves a balance of 200 — the second call with
the already-used id increased the balance again — and two purchase
transactions carrying the same id. -/
theorem purchase_no_dedup_cex :
    (purchase (purchase freshAccount 100 "100" "pi_dup" true true).2
        100 "100" "pi_dup" true true).1 = .success 200 100 ∧
    getBalance (purchase (purchase freshAccount 100 "100" "pi_dup" true true).2
        100 "100" "pi_dup" true true).2 = 200 ∧
    ((purchase (purchase freshAccount 100 "100" "pi_dup" true true).2
        100 "100" "pi_dup" true true).2.txLog.map Tx.pid) =
      [some "pi_dup", some "pi_dup"] := by
  refine ⟨by decide, by decide, by decide⟩

/-- C7 (amended): purchase performs no deduplication by paymentIntentId:
every schema-valid purchase adds its amount to the balance regardless of
the id, so two calls carrying the same paymentIntentId add both amounts. -/
theorem purchase_same_pid_credits_twice (s : AccountState) (a1 a2 : Int)
    (pt1 pt2 pid : String) (h1 : purchaseSchemaOk a1 pt1)
    (h2 : purchaseSchemaOk a2 pt2) :
    getBalance (purchase (purchase s a1 pt1 pid true true).2
        a2 pt2 pid true true).2 = getBalance s + a1 + a2 := by
  simp [purchase, getBalance, h1, h2, add_assoc]

/-- Witness for C7 (amended): 100 then 100 with the same id on a fresh
account yields 0 + 100 + 100. -/
theorem purchase_same_pid_credits_twice_witness :
    purchaseSchemaOk 100 "100" ∧
    getBalance (purchase (purchase freshAccount 100 "100" "pi_dup" true true).2
        100 "100" "pi_dup" true true).2 = getBalance freshAccount + 100 + 100 :=
  ⟨by decide,
    purchase_same_pid_credits_twice freshAccount 100 100 "100" "100" "pi_dup"
      (by decide) (by decide)⟩

/-- C8: role assignment is one-time: for an authenticated account that
already has a role in one of the attendee/dj/venue tables (`getUserRole`
finds `r`), any subsequent role-assignment request returns the 409
conflict reporting `r` as the current role, and the role tables are left
unchanged — no profile row is inserted. -/
theorem assignRole_conflict (s : RoleState) (uid email : String)
    (role r : UserRole) (insertOk : Bool) (hu : uid ≠ "") (he : email ≠ "")
    (h : getUserRole s uid = some r) :
    assignRole s uid email role insertOk = (.conflict r, s) := by
  simp [assignRole, hu, he, h]

/-- Witness for C8: an account holding the dj role gets a 409 with
currentRole dj when asking for the venue role, and nothing is inserted. -/
theorem assignRole_conflict_witness :
    ("u1" : String) ≠ "" ∧ ("u1@x.com" : String) ≠ "" ∧
    getUserRole ⟨[], ["u1"], []⟩ "u1" = some .dj ∧
    assignRole ⟨[], ["u1"], []⟩ "u1" "u1@x.com" .venue true =
      (.conflict .dj, ⟨[], ["u1"], []⟩) :=
  ⟨by decide, by decide, by decide,
    assignRole_conflict ⟨[], ["u1"], []⟩ "u1" "u1@x.com" .venue .dj true
      (by decide) (by decide) (by decide)⟩

/-- C9: role assignment is not permanently one-time: DELETE /api/role
removes the account's role row (for an account holding exactly one role),
after which `getUserRole` finds no role, so a subsequent role assignment
passes the already-has-a-role check and succeeds with 201 instead of
failing with 409. -/
theorem deleteRole_then_assign (s : RoleState) (uid email : String)
    (r role : UserRole) (hu : uid ≠ "") (he : email ≠ "")
    (h : getUserRole s uid = some r) (hcount : roleCount s uid = 1) :
    (deleteRole s uid true).1 = .deleted ∧
    getUserRole (deleteRole s uid true).2 uid = none ∧
    (assignRole (deleteRole s uid true).2 uid email role true).1 =
      .created role := by
  unfold getUserRole at h
  by_cases ha : uid ∈ s.attendee
  · rw [if_pos ha] at h
    have hnd : uid ∉ s.dj := by
      intro hd
      simp only [roleCount, if_pos ha, if_pos hd] at hcount
      split_ifs at hcount
      all_goals omega
    have hnv : uid ∉ s.venue := by
      intro hv
      simp only [roleCount, if_pos ha, if_pos hv] at hcount
      split_ifs at hcount
      all_goals omega
    have hstate : deleteRole s uid true = (.deleted, removeRole s .attendee uid) := by
      simp [deleteRole, hu, getUserRole, ha]
    refine ⟨by rw [hstate], ?_, ?_⟩
    · rw [hstate]
      simp [getUserRole, removeRole, not_mem_filter_self, hnd, hnv]
    · rw [hstate]
      simp [assignRole, hu, he, getUserRole, removeRole,
        not_mem_filter_self, hnd, hnv]
  · rw [if_neg ha] at h
    by_cases hd : uid ∈ s.dj
    · rw [if_pos hd] at h
      have hnv : uid ∉ s.venue := by
        intro hv
        simp only [roleCount, if_pos hd, if_pos hv] at hcount
        split_ifs at hcount
        all_goals omega
      have hstate : deleteRole s uid true = (.deleted, removeRole s .dj uid) := by
        simp [deleteRole, hu, getUserRole, ha, hd]
      refine ⟨by rw [hstate], ?_, ?_⟩
      · rw [hstate]
        simp [getUserRole, removeRole, not_mem_filter_self, ha, hnv]
      · rw [hstate]
        simp [assignRole, hu, he, getUserRole, removeRole,
          not_mem_filter_self, ha, hnv]
    · rw [if_neg hd] at h
      by_cases hv : uid ∈ s.venue
      · rw [if_pos hv] at h
        have hstate : deleteRole s uid true = (.deleted, removeRole s .venue uid) := by
          simp [deleteRole, hu, getUserRole, ha, hd, hv]
        refine ⟨by rw [hstate], ?_, ?_⟩
        · rw [hstate]
          simp [getUserRole, removeRole, not_mem_filter_self, ha, hd]
        · rw [hstate]
          simp [assignRole, hu, he, getUserRole, removeRole,
            not_mem_filter_self, ha, hd]
      · rw [if_neg hv] at h
        exact absurd h (by simp)

/-- Witness for C9: delete the dj role of an account that holds only it,
then successfully assign the venue role. -/
theorem deleteRole_then_assign_witness :
    ("u1" : String) ≠ "" ∧ ("u1@x.com" : String) ≠ "" ∧
    getUserRole ⟨[], ["u1"], []⟩ "u1" = some .dj ∧
    roleCount ⟨[], ["u1"], []⟩ "u1" = 1 ∧
    ((deleteRole ⟨[], ["u1"], []⟩ "u1" true).1 = .deleted ∧
     getUserRole (deleteRole ⟨[], ["u1"], []⟩ "u1" true).2 "u1" = none ∧
     (assignRole (deleteRole ⟨[], ["u1"], []⟩ "u1" true).2 "u1" "u1@x.com"
        .venue true).1 = .created .venue) :=
  ⟨by decide, by decide, by decide, by decide,
    deleteRole_then_assign ⟨[], ["u1"], []⟩ "u1" "u1@x.com" .dj .venue
      (by decide) (by decide) (by decide) (by decide)⟩

/-- C10: the transactions route sets hasMore to true exactly when the
returned page holds exactly `limit` transactions; hence when the account's
transaction count is an exact multiple k·limit of the limit, the last full
page (page k) reports hasMore = true even though page k+1 is empty — no
further transactions exist. -/
theorem listTransactions_hasMore (s : AccountState) (page limit k : Nat)
    (hk : 1 ≤ k) (hl : 1 ≤ limit) (hlen : s.txLog.length = k * limit) :
    ((listTransactions s page limit).2 = true ↔
      (listTransactions s page limit).1.length = limit) ∧
    (listTransactions s k limit).2 = true ∧
    (listTransactions s (k + 1) limit).1 = [] ∧
    (listTransactions s (k + 1) limit).2 = false := by
  have hrev : s.txLog.reverse.length = k * limit := by simpa using hlen
  have hle : limit ≤ k * limit := Nat.le_mul_of_pos_left limit hk
  have hmul : (k - 1) * limit = k * limit - limit := Nat.sub_one_mul k limit
  have hdropk : (s.txLog.reverse.drop ((k - 1) * limit)).length = limit := by
    rw [List.length_drop, hrev, hmul]
    omega
  have hdropk1 : s.txLog.reverse.drop (k * limit) = [] :=
    List.drop_eq_nil_of_le (by omega)
  refine ⟨by simp [listTransactions, beq_iff_eq], ?_, ?_, ?_⟩
  · simp only [listTransactions, beq_iff_eq, List.length_take, hdropk]
    omega
  · simp [listTransactions, Nat.add_sub_cancel, hdropk1]
  · simp only [listTransactions, Nat.add_sub_cancel, hdropk1,
      List.take_nil, List.length_nil, beq_eq_false_iff_ne, ne_eq]
    omega

/-- Six recorded transactions, for exercising pagination with limit 3. -/
def pagedAccount : AccountState :=
  ⟨some 60,
   [⟨10, "purchase", some "p1"⟩, ⟨20, "purchase", some "p2"⟩,
    ⟨-5, "bid", none⟩, ⟨15, "purchase", some "p3"⟩,
    ⟨-3, "bid", none⟩, ⟨23, "purchase", some "p4"⟩], [], []⟩

/-- Witness for C10 with 6 transactions and limit 3: page 2 is full and
claims hasMore, page 3 is empty. -/
theorem listTransactions_hasMore_witness :
    (1 ≤ 2 ∧ 1 ≤ 3 ∧ pagedAccount.txLog.length = 2 * 3) ∧
    (((listTransactions pagedAccount 1 3).2 = true ↔
       (listTransactions pagedAccount 1 3).1.length = 3) ∧
     (listTransactions pagedAccount 2 3).2 = true ∧
     (listTransactions pagedAccount 3 3).1 = [] ∧
     (listTransactions pagedAccount 3 3).2 = false) :=
  ⟨⟨by decide, by decide, by decide⟩,
    listTransactions_hasMore pagedAccount 1 3 2 (by decide) (by decide)
      (by decide)⟩

end DJEI
